import Mathlib

/-!
Verification of the migration-applier scripts (`apply-migrations-api.py`,
`deploy-production.py`) and probe scripts (`testsprite_tests/TC*.py`) of the
dudufisio repository, via a shallow embedding of their control flow.

Python strings are embedded as `List Char`; the network is an oracle mapping
each request to its outcome (an HTTP response, or a raised exception).
-/

namespace DuduFisio

/-! ## Python string primitives -/

/-- Embedding of Python `text.split(sep)` for a one-character separator:
`"".split(";") = [""]`, `";".split(";") = ["", ""]`, and so on. -/
def pySplit (sep : Char) : List Char → List (List Char)
  | [] => [[]]
  | c :: cs =>
    if c = sep then [] :: pySplit sep cs
    else
      match pySplit sep cs with
      | [] => [[c]]
      | s :: rest => (c :: s) :: rest

/-- Embedding of Python `text.strip()`: drop whitespace from both ends. -/
def pyStrip (s : List Char) : List Char :=
  ((s.dropWhile Char.isWhitespace).reverse.dropWhile Char.isWhitespace).reverse

/-- Joins segments with the separator `;` (used to state splitter round trips). -/
def joinSemi : List (List Char) → List Char
  | [] => []
  | [s] => s
  | s :: rest => s ++ ';' :: joinSemi rest

/-- Embedding of Python `text.startswith("--")`. -/
def startsWithDashDash : List Char → Bool
  | '-' :: '-' :: _ => true
  | _ => false

/-! ## The statement splitter

Both applier scripts split a migration file with the same comprehension
(`apply-migrations-api.py` line 88, `deploy-production.py` line 87):
`[stmt.strip() for stmt in sql_content.split(';') if stmt.strip()]`. -/

/-- The statement splitter of `apply_migration`: split on `;`, strip each
segment, keep it only when the stripped segment is non-empty (Python
truthiness of `stmt.strip()`). -/
def splitStatements (sql : List Char) : List (List Char) :=
  (pySplit ';' sql).filterMap (fun stmt =>
    let t := pyStrip stmt
    if t.isEmpty then none else some t)

/-- The splitter as the spec describes it (for comparison with
`splitStatements`): split on `;`, trim, discard empty segments and segments
consisting solely of a comment marker `--`. -/
def specSplitStatements (sql : List Char) : List (List Char) :=
  ((pySplit ';' sql).map pyStrip).filter
    (fun t => !t.isEmpty && !(t == ['-', '-']))

/-- The skip condition of the statement loop in `apply-migrations-api.py`
line 92: `if not statement or statement.startswith('--'): continue`. -/
def apiSkips (s : List Char) : Bool :=
  s.isEmpty || startsWithDashDash s

/-- The skip condition of the statement loop in `deploy-production.py`
line 91: `if not statement: continue` (no comment check). -/
def deploySkips (s : List Char) : Bool :=
  s.isEmpty

/-! ## HTTP model and the two SQL execution functions

A request either yields an HTTP response or raises a transport exception.
A response carries its status code, its text body (`response.text`), and the
outcome of calling `response.json()` on it (which raises when the body is not
valid JSON; that call sits inside the `try` block of `execute_sql_via_rpc`).
-/

/-- Outcome of one HTTP request: a response, or a raised exception. -/
inductive HttpOutcome where
  | resp (status : Nat) (body : String) (jsonBody : Except String String)
  | exn (msg : String)

/-- The result dictionary built by the execution functions:
`{'success': True, 'data': ...}` or `{'success': False, 'error': ...}`. -/
inductive SqlResult where
  | ok (data : String)
  | err (error : String)
deriving DecidableEq, Repr

/-- The `success` field of a result dictionary. -/
def SqlResult.success : SqlResult → Bool
  | .ok _ => true
  | .err _ => false

/-- The error string `f"HTTP {response.status_code}: {response.text}"`. -/
def httpError (status : Nat) (body : String) : String :=
  "HTTP " ++ toString status ++ ": " ++ body

/-- Embedding of `execute_sql_via_rpc` (`apply-migrations-api.py` lines 24-53,
identical logic in `deploy-production.py` lines 51-80): success exactly on
HTTP 200, with `data` set to `response.json()`; any exception — including a
`response.json()` decode failure on a 200 response — is caught and turned
into a failure result carrying the exception text. -/
def executeSqlViaRpc : HttpOutcome → SqlResult
  | .exn e => .err e
  | .resp status body jsonBody =>
    if status = 200 then
      match jsonBody with
      | .ok d => .ok d
      | .error e => .err e
    else .err (httpError status body)

/-- Embedding of `execute_sql_direct` (`apply-migrations-api.py` lines 55-81):
success exactly on HTTP 200, 201 or 204, with `data` set to `response.text`
(the body is never JSON-parsed); any exception is caught and turned into a
failure result carrying the exception text. -/
def executeSqlDirect : HttpOutcome → SqlResult
  | .exn e => .err e
  | .resp status body _ =>
    if status = 200 ∨ status = 201 ∨ status = 204 then .ok body
    else .err (httpError status body)

/-! ## The per-statement execution of `apply_migration`

The network is an oracle mapping each statement index to the outcome of the
request that would be issued for it on each endpoint. -/

/-- The result kept for statement `i` by `apply_migration` in
`apply-migrations-api.py` lines 98-101: try the RPC endpoint first and, when
that result is not a success, replace it by the direct-endpoint result. -/
def stmtResult (erpc edirect : Nat → HttpOutcome) (i : Nat) : SqlResult :=
  let r := executeSqlViaRpc (erpc i)
  if r.success then r else executeSqlDirect (edirect i)

/-- The two remote execution endpoints. -/
inductive Endpoint where
  | rpc
  | direct
deriving DecidableEq, Repr

/-- The sequence of endpoint attempts made for statement `i` by
`apply-migrations-api.py` lines 98-101: the RPC endpoint always, then the
direct endpoint exactly when the RPC attempt was not a success. -/
def attemptsApi (erpc : Nat → HttpOutcome) (i : Nat) : List Endpoint :=
  if (executeSqlViaRpc (erpc i)).success then [Endpoint.rpc]
  else [Endpoint.rpc, Endpoint.direct]

/-- The sequence of endpoint attempts made for a statement by
`deploy-production.py` line 96: a single RPC-endpoint call, with no fallback
of any kind. -/
def attemptsDeploy (_erpc : Nat → HttpOutcome) (_i : Nat) : List Endpoint :=
  [Endpoint.rpc]

/-- The shared shape of the two statement loops: walk the enumerated
statement list, skip the statements the loop guard skips, and record the
execution result of every submitted statement, in order.  Neither source
loop ever stops early. -/
def runLoop (skip : List Char → Bool) (res : Nat → SqlResult) :
    List (Nat × List Char) → List (Nat × SqlResult)
  | [] => []
  | p :: rest =>
    if skip p.2 then runLoop skip res rest
    else (p.1, res p.1) :: runLoop skip res rest

/-- The statement loop of `apply_migration` in `apply-migrations-api.py`
lines 91-108: skipped statements (empty, or starting with `--`) produce
nothing; every other statement is submitted and contributes its
(fallback-inclusive) result. -/
def runStatements (erpc edirect : Nat → HttpOutcome)
    (ps : List (Nat × List Char)) : List (Nat × SqlResult) :=
  runLoop apiSkips (stmtResult erpc edirect) ps

/-- The statement loop of `apply_migration` in `deploy-production.py`
lines 90-101: only empty statements are skipped (none are, after the split
filter), and each submitted statement gets a single RPC-endpoint attempt. -/
def runStatementsDeploy (erpc : Nat → HttpOutcome)
    (ps : List (Nat × List Char)) : List (Nat × SqlResult) :=
  runLoop deploySkips (fun i => executeSqlViaRpc (erpc i)) ps

/-- Embedding of `apply_migration` in `apply-migrations-api.py` lines 83-111:
split the SQL, run the statement loop counting successes, and report the
migration applied exactly when `success_count == len(statements)`. -/
def applyMigrationApi (erpc edirect : Nat → HttpOutcome) (sql : List Char) :
    Bool :=
  let statements := splitStatements sql
  let successCount :=
    (runStatements erpc edirect statements.enum).countP (fun q => q.2.success)
  successCount == statements.length

/-- Embedding of `apply_migration` in `deploy-production.py` lines 82-104:
same counting, single-endpoint execution. -/
def applyMigrationDeploy (erpc : Nat → HttpOutcome) (sql : List Char) :
    Bool :=
  let statements := splitStatements sql
  let successCount :=
    (runStatementsDeploy erpc statements.enum).countP (fun q => q.2.success)
  successCount == statements.length

/-! ## The main runs

The filesystem is an oracle `fs` mapping each migration index to the file
content, or `none` when opening the file raises `FileNotFoundError`.  The
network oracles are indexed per migration and per statement. -/

/-- Embedding of `read_migration_file` in `apply-migrations-api.py`
lines 15-22: `FileNotFoundError` is caught, a message is printed, and `None`
is returned. -/
def readMigrationFileApi (fs : Nat → Option (List Char)) (k : Nat) :
    Option (List Char) :=
  fs k

/-- Embedding of `read_migration_file` in `deploy-production.py` lines 42-49:
`FileNotFoundError` is caught and the whole process is terminated by
`sys.exit(1)`, modelled as the `error` branch. -/
def readMigrationFileDeploy (fs : Nat → Option (List Char)) (k : Nat) :
    Except Unit (List Char) :=
  match fs k with
  | none => .error ()
  | some sql => .ok sql

/-- One iteration of the migration loop of `apply-migrations-api.py`
lines 167-170: `if sql_content and apply_migration(...)`.  A missing file
(`None`) and an empty file (falsy string) both short-circuit, so
`apply_migration` is not called and the migration does not count as a
success. -/
def migrationOk (fs : Nat → Option (List Char))
    (erpc edirect : Nat → Nat → HttpOutcome) (k : Nat) : Bool :=
  match readMigrationFileApi fs k with
  | none => false
  | some sql =>
    if sql.isEmpty then false
    else applyMigrationApi (erpc k) (edirect k) sql

/-- The migration loop of `apply-migrations-api.py` lines 166-171: returns
the final `success_count` together with the list of migrations the loop
processed (it never stops early). -/
def apiLoop (fs : Nat → Option (List Char))
    (erpc edirect : Nat → Nat → HttpOutcome) : List Nat → Nat × List Nat
  | [] => (0, [])
  | k :: rest =>
    let r := apiLoop fs erpc edirect rest
    ((if migrationOk fs erpc edirect k then 1 else 0) + r.1, k :: r.2)

/-- Embedding of `main` in `apply-migrations-api.py` lines 139-183, as the
process exit status: `1` when the connectivity test fails, `0` when
`success_count == len(migrations)`, `1` otherwise. -/
def mainApi (conn : Bool) (fs : Nat → Option (List Char))
    (erpc edirect : Nat → Nat → HttpOutcome) (ks : List Nat) : Nat :=
  if !conn then 1
  else if (apiLoop fs erpc edirect ks).1 = ks.length then 0 else 1

/-- The migration loop of `deploy-production.py` lines 132-136: a missing
file terminates the process from inside `read_migration_file` (the `error`
branch); otherwise the loop accumulates `success_count`. -/
def deployLoop (fs : Nat → Option (List Char))
    (erpc : Nat → Nat → HttpOutcome) : List Nat → Except Unit Nat
  | [] => .ok 0
  | k :: rest =>
    match readMigrationFileDeploy fs k with
    | .error _ => .error ()
    | .ok sql =>
      match deployLoop fs erpc rest with
      | .error _ => .error ()
      | .ok n => .ok ((if applyMigrationDeploy (erpc k) sql then 1 else 0) + n)

/-- The migrations on which `deploy-production.py` actually invokes
`apply_migration` in a run: the loop stops at the first missing file, since
`read_migration_file` exits the process there. -/
def deployApplied (fs : Nat → Option (List Char)) : List Nat → List Nat
  | [] => []
  | k :: rest =>
    match fs k with
    | none => []
    | some _ => k :: deployApplied fs rest

/-- The exit status contributed by the migration phase of
`deploy-production.py`: `1` when some file was missing (the process already
exited from `read_migration_file`), `0` when `success_count ==
len(migrations)`, `1` otherwise. -/
def deployExit (fs : Nat → Option (List Char))
    (erpc : Nat → Nat → HttpOutcome) (ks : List Nat) : Nat :=
  match deployLoop fs erpc ks with
  | .error _ => 1
  | .ok n => if n = ks.length then 0 else 1

/-- Embedding of `main` in `deploy-production.py` lines 106-148, as the
process exit status: `1` when a required environment variable is missing
(`get_env_vars`), otherwise the migration-phase exit status. -/
def mainDeploy (envOk : Bool) (fs : Nat → Option (List Char))
    (erpc : Nat → Nat → HttpOutcome) (ks : List Nat) : Nat :=
  if !envOk then 1
  else deployExit fs erpc ks

/-- Whether one migration of the `deploy-production.py` run was fully
applied: its file present and `apply_migration` returning `True`. -/
def deployFullyApplied (fs : Nat → Option (List Char))
    (erpc : Nat → Nat → HttpOutcome) (k : Nat) : Bool :=
  match fs k with
  | none => false
  | some sql => applyMigrationDeploy (erpc k) sql

/-! ## Probe scripts (testsprite_tests)

Each probe request either returns a response, abstracted as its status code
together with the `id` field extracted from its JSON body (`none` when the
body cannot be parsed or carries no such field), or raises. -/

/-- Outcome of one probe request. -/
inductive ReqOutcome where
  | resp (status : Nat) (idField : Option String)
  | raise
deriving DecidableEq, Repr

/-- Python truthiness of an id variable that is `None` or a string. -/
def pyTruthy : Option String → Bool
  | none => false
  | some s => !(s == "")

/-- How a linear probe script leaves its `try` block. -/
inductive ScriptExit where
  | passed
  | assertFailed
  | raised
deriving DecidableEq, Repr

/-- Cleanup resources deleted by the probe scripts. -/
inductive DeleteTarget where
  | appointment
  | patient
deriving DecidableEq, Repr

/-! ### TC004 (create patient)

`TC004_patients_management_api_create_patient_endpoint.py`: the `try` block
creates a patient (appending its id to `created_patient_ids` only after the
201 assertion and the id extraction succeed), then sends two invalid create
requests; the `finally` block loops over the recorded ids and wraps each
DELETE in its own `try/except: pass`. -/

/-- The three requests the script may issue, in order. -/
structure TC004Env where
  create : ReqOutcome
  invalidCpf : ReqOutcome
  duplicate : ReqOutcome

/-- What a TC004 run did: whether the server created a patient (the create
request returned 201), which ids the script recorded, how the script exited,
and for which ids a cleanup DELETE was attempted. -/
structure TC004Result where
  exit : ScriptExit
  createdPatient : Bool
  recordedIds : List String
  deletions : List String
deriving DecidableEq, Repr

/-- The `finally` block of TC004 (lines 67-77): every recorded id gets a
DELETE attempt, each individually guarded by `try/except: pass`, so a raising
DELETE never skips the remaining ones. -/
def tc004Finally (ids : List String) : List String :=
  ids

/-- Embedding of `test_tc004_create_patient_endpoint`.  An `idField` of
`none` on a 201 response covers the three source paths that all leave
`created_patient_ids` empty: empty body (`assert False`), unparsable body
(`response.json()` raises inside the `try`), and a JSON body without an
`id` key (`assert patient_id is not None` fails). -/
def tc004Run (env : TC004Env) : TC004Result :=
  match env.create with
  | .raise => ⟨.raised, false, [], tc004Finally []⟩
  | .resp st pid =>
    if st == 201 then
      match pid with
      | none => ⟨.assertFailed, true, [], tc004Finally []⟩
      | some s =>
        let ids := [s]
        match env.invalidCpf with
        | .raise => ⟨.raised, true, ids, tc004Finally ids⟩
        | .resp ist _ =>
          if 400 ≤ ist then
            match env.duplicate with
            | .raise => ⟨.raised, true, ids, tc004Finally ids⟩
            | .resp dst _ =>
              if 400 ≤ dst then ⟨.passed, true, ids, tc004Finally ids⟩
              else ⟨.assertFailed, true, ids, tc004Finally ids⟩
          else ⟨.assertFailed, true, ids, tc004Finally ids⟩
    else ⟨.assertFailed, false, [], tc004Finally []⟩

/-! ### TC008 (create appointment)

`TC008_appointments_management_api_create_appointment_endpoint.py`: login
happens before the `try` block; inside it a patient and then an appointment
are created and three invalid create requests asserted; the `finally` block
(lines 124-128) issues the appointment DELETE and then the patient DELETE
with no exception guard around either. -/

/-- The requests the script may issue, in order. -/
structure TC008Env where
  login : ReqOutcome
  patientCreate : ReqOutcome
  apptCreate : ReqOutcome
  conflict : ReqOutcome
  missingPatient : ReqOutcome
  missingDate : ReqOutcome
  apptDelete : ReqOutcome
  patientDelete : ReqOutcome

/-- State of the id variables when control leaves the `try` block of TC008,
plus whether the two create requests returned 201. -/
structure TC008Exit where
  exit : ScriptExit
  patientId : Option String
  apptId : Option String
  createdPatient : Bool
  createdAppt : Bool

/-- The `finally` block of TC008 (lines 124-128): `if appointment_id:`
delete the appointment — a raise here propagates, skipping the patient
delete — then `if patient_id:` delete the patient. -/
def tc008Finally (env : TC008Env) (patientId apptId : Option String) :
    List DeleteTarget :=
  if pyTruthy apptId then
    match env.apptDelete with
    | .raise => [DeleteTarget.appointment]
    | .resp _ _ =>
      DeleteTarget.appointment ::
        (if pyTruthy patientId then [DeleteTarget.patient] else [])
  else if pyTruthy patientId then [DeleteTarget.patient] else []

/-- The `try` block of TC008 (lines 68-122).  The id variables are assigned
only after the corresponding 201 assertion passes; the three tail requests
(conflict, missing patient, missing date) decide only how the block exits. -/
def tc008TryBlock (env : TC008Env) : TC008Exit :=
  match env.patientCreate with
  | .raise => ⟨.raised, none, none, false, false⟩
  | .resp pst pid =>
    if pst == 201 then
      if pyTruthy pid then
        match env.apptCreate with
        | .raise => ⟨.raised, pid, none, true, false⟩
        | .resp ast aid =>
          if ast == 201 then
            if pyTruthy aid then
              match env.conflict with
              | .raise => ⟨.raised, pid, aid, true, true⟩
              | .resp cst _ =>
                if cst == 400 || cst == 409 then
                  match env.missingPatient with
                  | .raise => ⟨.raised, pid, aid, true, true⟩
                  | .resp mst _ =>
                    if mst == 400 then
                      match env.missingDate with
                      | .raise => ⟨.raised, pid, aid, true, true⟩
                      | .resp dst _ =>
                        if dst == 400 then ⟨.passed, pid, aid, true, true⟩
                        else ⟨.assertFailed, pid, aid, true, true⟩
                    else ⟨.assertFailed, pid, aid, true, true⟩
                else ⟨.assertFailed, pid, aid, true, true⟩
            else ⟨.assertFailed, pid, aid, true, true⟩
          else ⟨.assertFailed, pid, none, true, false⟩
      else ⟨.assertFailed, pid, none, true, false⟩
    else ⟨.assertFailed, none, none, false, false⟩

/-- What a TC008 run did. -/
structure TC008Result where
  createdPatient : Bool
  createdAppt : Bool
  recordedPatient : Bool
  recordedAppt : Bool
  deletions : List DeleteTarget
deriving DecidableEq, Repr

/-- Embedding of `test_appointments_management_api_create_appointment`:
a login failure exits before the `try` block (no `finally` runs); otherwise
the `try` block runs and the `finally` block issues the cleanup requests. -/
def tc008Run (env : TC008Env) : TC008Result :=
  match env.login with
  | .raise => ⟨false, false, false, false, []⟩
  | .resp lst _ =>
    if lst == 200 then
      let e := tc008TryBlock env
      ⟨e.createdPatient, e.createdAppt, pyTruthy e.patientId,
        pyTruthy e.apptId, tc008Finally env e.patientId e.apptId⟩
    else ⟨false, false, false, false, []⟩

/-! ### TC010 (LGPD export)

`TC010_lgpd_compliance_api_export_data_endpoint.py`: login before the `try`
block; inside it one patient is created, then export and invalid-input
requests are asserted; the `finally` block (lines 113-122) issues a single
patient DELETE guarded by `if patient_id:` and asserts its status only after
the request was sent. -/

/-- TC010 requests: the export and invalid-input steps after the create only
decide how the `try` block exits and are abstracted as that exit, since every
one of them reaches the same `finally` block with the same `patient_id`. -/
structure TC010Env where
  login : ReqOutcome
  create : ReqOutcome
  exportSteps : ScriptExit
  patientDelete : ReqOutcome

/-- What a TC010 run did. -/
structure TC010Result where
  createdPatient : Bool
  recordedPatient : Bool
  deletions : List DeleteTarget
deriving DecidableEq, Repr

/-- The `finally` block of TC010: the DELETE request is issued exactly when
`patient_id` is truthy (its status assertion happens after the call, so the
attempt is made regardless of the outcome). -/
def tc010Finally (pid : Option String) : List DeleteTarget :=
  if pyTruthy pid then [DeleteTarget.patient] else []

/-- Embedding of `test_lgpd_export_personal_data_endpoint`. -/
def tc010Run (env : TC010Env) : TC010Result :=
  match env.login with
  | .raise => ⟨false, false, []⟩
  | .resp lst _ =>
    if lst == 200 then
      match env.create with
      | .raise => ⟨false, false, tc010Finally none⟩
      | .resp st pid =>
        if st == 201 then
          if pid.isSome then ⟨true, pyTruthy pid, tc010Finally pid⟩
          else ⟨true, false, tc010Finally none⟩
        else ⟨false, false, tc010Finally none⟩
    else ⟨false, false, []⟩

/-! ## Helper lemmas -/

theorem pySplit_ne_nil (sep : Char) : ∀ l : List Char, pySplit sep l ≠ [] := by
  intro l
  induction l with
  | nil => simp [pySplit]
  | cons c cs ih =>
    by_cases h : c = sep
    · simp [pySplit, h]
    · simp only [pySplit, if_neg h]
      cases hs : pySplit sep cs with
      | nil => simp
      | cons s rest => simp

theorem pySplit_no_sep {sep : Char} {l : List Char} (h : sep ∉ l) :
    pySplit sep l = [l] := by
  induction l with
  | nil => rfl
  | cons c cs ih =>
    have hc : c ≠ sep := fun hc => h (hc ▸ List.mem_cons_self c cs)
    have hcs : sep ∉ cs := fun hm => h (List.mem_cons_of_mem c hm)
    simp only [pySplit, if_neg hc, ih hcs]

theorem pySplit_append {sep : Char} {a : List Char} (r : List Char)
    (h : sep ∉ a) : pySplit sep (a ++ sep :: r) = a :: pySplit sep r := by
  induction a with
  | nil => simp [pySplit]
  | cons c cs ih =>
    have hc : c ≠ sep := fun hc => h (hc ▸ List.mem_cons_self c cs)
    have hcs : sep ∉ cs := fun hm => h (List.mem_cons_of_mem c hm)
    have ih2 := ih hcs
    simp only [List.cons_append, pySplit, if_neg hc, List.append_eq] at *
    rw [ih2]

theorem pySplit_joinSemi : ∀ segs : List (List Char), segs ≠ [] →
    (∀ s ∈ segs, ';' ∉ s) → pySplit ';' (joinSemi segs) = segs := by
  intro segs
  induction segs with
  | nil => intro h; exact absurd rfl h
  | cons a rest ih =>
    intro _ hall
    cases rest with
    | nil =>
      simpa [joinSemi] using pySplit_no_sep (hall a (List.mem_cons_self a []))
    | cons b t =>
      have ha : ';' ∉ a := hall a (List.mem_cons_self a (b :: t))
      have hrest : ∀ s ∈ b :: t, ';' ∉ s := fun s hs =>
        hall s (List.mem_cons_of_mem a hs)
      show pySplit ';' (a ++ ';' :: joinSemi (b :: t)) = a :: b :: t
      rw [pySplit_append _ ha, ih (by simp) hrest]

theorem splitStatements_eq_filter (sql : List Char) :
    splitStatements sql =
      ((pySplit ';' sql).map pyStrip).filter (fun t => !t.isEmpty) := by
  unfold splitStatements
  induction pySplit ';' sql with
  | nil => rfl
  | cons s rest ih =>
    simp only [List.filterMap_cons, List.map_cons, List.filter_cons,
      List.isEmpty_iff] at *
    by_cases h : pyStrip s = []
    · simp [h, ih]
    · simp [h, ih]

theorem splitStatements_not_empty (sql : List Char) :
    ∀ s ∈ splitStatements sql, s.isEmpty = false := by
  intro s hs
  rcases List.mem_filterMap.mp hs with ⟨a, ha, hfa⟩
  dsimp only at hfa
  by_cases h : (pyStrip a).isEmpty
  · rw [if_pos h] at hfa
    cases hfa
  · rw [if_neg h] at hfa
    cases hfa
    simpa using h

theorem runLoop_length_le (skip : List Char → Bool) (res : Nat → SqlResult) :
    ∀ ps : List (Nat × List Char), (runLoop skip res ps).length ≤ ps.length := by
  intro ps
  induction ps with
  | nil => simp [runLoop]
  | cons p rest ih =>
    by_cases h : skip p.2
    · simp only [runLoop, if_pos h, List.length_cons]
      exact Nat.le_succ_of_le ih
    · simp only [runLoop, if_neg h, List.length_cons]
      exact Nat.succ_le_succ ih

theorem runLoop_map_fst (skip : List Char → Bool) (res res' : Nat → SqlResult) :
    ∀ ps : List (Nat × List Char),
      (runLoop skip res ps).map Prod.fst = (runLoop skip res' ps).map Prod.fst := by
  intro ps
  induction ps with
  | nil => rfl
  | cons p rest ih =>
    by_cases h : skip p.2
    · simpa [runLoop, h] using ih
    · simpa [runLoop, h] using ih

theorem runLoop_mem_fst (skip : List Char → Bool) (res : Nat → SqlResult)
    {ps : List (Nat × List Char)} {p : Nat × List Char} (hp : p ∈ ps)
    (hskip : skip p.2 = false) :
    p.1 ∈ (runLoop skip res ps).map Prod.fst := by
  induction ps with
  | nil => cases hp
  | cons q rest ih =>
    rcases List.mem_cons.mp hp with h | h
    · subst h
      simp [runLoop, hskip]
    · by_cases hq : skip q.2
      · simpa [runLoop, hq] using ih h
      · simp only [runLoop, if_neg hq, List.map_cons, List.mem_cons]
        exact Or.inr (ih h)

theorem runLoop_countP_eq_length_iff (skip : List Char → Bool)
    (res : Nat → SqlResult) :
    ∀ ps : List (Nat × List Char),
      ((runLoop skip res ps).countP (fun q => q.2.success) = ps.length ↔
        ∀ p ∈ ps, skip p.2 = false ∧ (res p.1).success = true) := by
  intro ps
  induction ps with
  | nil => simp [runLoop]
  | cons p rest ih =>
    have hcle : (runLoop skip res rest).countP (fun q => q.2.success) ≤
        rest.length :=
      le_trans (List.countP_le_length _) (runLoop_length_le skip res rest)
    by_cases h : skip p.2
    · simp only [runLoop, if_pos h, List.length_cons]
      constructor
      · intro hc
        exact absurd hc (by omega)
      · intro hall
        exact absurd (hall p (List.mem_cons_self p rest)).1 (by simp [h])
    · by_cases hs : (res p.1).success = true
      · have e1 : (runLoop skip res (p :: rest)).countP (fun q => q.2.success)
            = (runLoop skip res rest).countP (fun q => q.2.success) + 1 := by
          simp [runLoop, h, List.countP_cons, hs]
        rw [e1, List.length_cons]
        constructor
        · intro hc
          have hrest := ih.mp (by omega)
          intro q hq
          rcases List.mem_cons.mp hq with hq | hq
          · subst hq
            exact ⟨by simpa using h, hs⟩
          · exact hrest q hq
        · intro hall
          have := ih.mpr (fun q hq => hall q (List.mem_cons_of_mem p hq))
          omega
      · have e1 : (runLoop skip res (p :: rest)).countP (fun q => q.2.success)
            = (runLoop skip res rest).countP (fun q => q.2.success) := by
          simp [runLoop, h, List.countP_cons, hs]
        rw [e1, List.length_cons]
        constructor
        · intro hc
          exact absurd hc (by omega)
        · intro hall
          exact absurd (hall p (List.mem_cons_self p rest)).2 hs

theorem apiLoop_processed (fs : Nat → Option (List Char))
    (erpc edirect : Nat → Nat → HttpOutcome) :
    ∀ ks : List Nat, (apiLoop fs erpc edirect ks).2 = ks := by
  intro ks
  induction ks with
  | nil => rfl
  | cons k rest ih => simp [apiLoop, ih]

theorem apiLoop_count (fs : Nat → Option (List Char))
    (erpc edirect : Nat → Nat → HttpOutcome) :
    ∀ ks : List Nat,
      (apiLoop fs erpc edirect ks).1 =
        ks.countP (fun k => migrationOk fs erpc edirect k) := by
  intro ks
  induction ks with
  | nil => rfl
  | cons k rest ih =>
    simp only [apiLoop, List.countP_cons, ih]
    by_cases h : migrationOk fs erpc edirect k
    · simp [h]
      omega
    · simp [h]

theorem deployLoop_ok_le (fs : Nat → Option (List Char))
    (erpc : Nat → Nat → HttpOutcome) :
    ∀ ks : List Nat, ∀ n : Nat,
      deployLoop fs erpc ks = .ok n → n ≤ ks.length := by
  intro ks
  induction ks with
  | nil =>
    intro n h
    simp only [deployLoop] at h
    cases h
    simp
  | cons k rest ih =>
    intro n h
    simp only [deployLoop] at h
    cases hfs : readMigrationFileDeploy fs k with
    | error e => rw [hfs] at h; cases h
    | ok sql =>
      rw [hfs] at h
      cases hdl : deployLoop fs erpc rest with
      | error e => rw [hdl] at h; cases h
      | ok m =>
        rw [hdl] at h
        cases h
        have := ih m hdl
        by_cases hap : applyMigrationDeploy (erpc k) sql
        · simp [hap, List.length_cons]
          omega
        · simp [hap, List.length_cons]
          omega

theorem deployExit_eq_zero_iff (fs : Nat → Option (List Char))
    (erpc : Nat → Nat → HttpOutcome) :
    ∀ ks : List Nat,
      (deployExit fs erpc ks = 0 ↔
        ∀ k ∈ ks, deployFullyApplied fs erpc k = true) := by
  intro ks
  induction ks with
  | nil => simp [deployExit, deployLoop]
  | cons k rest ih =>
    cases hfs : fs k with
    | none =>
      have hd : deployExit fs erpc (k :: rest) = 1 := by
        simp [deployExit, deployLoop, readMigrationFileDeploy, hfs]
      rw [hd]
      constructor
      · intro hc
        cases hc
      · intro hall
        have := hall k (List.mem_cons_self k rest)
        simp [deployFullyApplied, hfs] at this
    | some sql =>
      cases hdl : deployLoop fs erpc rest with
      | error e =>
        have hd : deployExit fs erpc (k :: rest) = 1 := by
          simp [deployExit, deployLoop, readMigrationFileDeploy, hfs, hdl]
        have hr : deployExit fs erpc rest = 1 := by
          simp [deployExit, hdl]
        rw [hd]
        constructor
        · intro hc
          cases hc
        · intro hall
          have : deployExit fs erpc rest = 0 :=
            ih.mpr (fun j hj => hall j (List.mem_cons_of_mem k hj))
          rw [hr] at this
          cases this
      | ok n =>
        have hle := deployLoop_ok_le fs erpc rest n hdl
        have hstep : deployLoop fs erpc (k :: rest) =
            Except.ok ((if applyMigrationDeploy (erpc k) sql then 1 else 0) + n) := by
          simp [deployLoop, readMigrationFileDeploy, hfs, hdl]
        have hall_iff :
            (∀ j ∈ k :: rest, deployFullyApplied fs erpc j = true) ↔
              (applyMigrationDeploy (erpc k) sql = true ∧
                ∀ j ∈ rest, deployFullyApplied fs erpc j = true) := by
          simp [List.forall_mem_cons, deployFullyApplied, hfs]
        have hrest : deployExit fs erpc rest =
            (if n = rest.length then 0 else 1) := by
          simp [deployExit, hdl]
        rw [hall_iff, ← ih, hrest]
        simp only [deployExit, hstep, List.length_cons]
        by_cases hap : applyMigrationDeploy (erpc k) sql
        · by_cases hn : n = rest.length
          · simp [hap, hn]
            omega
          · simp [hap, hn, if_neg (show ¬ (1 + n = rest.length + 1) by omega)]
        · have h1 : ¬ (n = rest.length + 1) := by omega
          simp [hap, h1]

theorem deployLoop_missing (fs : Nat → Option (List Char))
    (erpc : Nat → Nat → HttpOutcome) (k : Nat) (post : List Nat)
    (hk : fs k = none) :
    ∀ pre : List Nat, (∀ j ∈ pre, fs j ≠ none) →
      deployLoop fs erpc (pre ++ k :: post) = .error () := by
  intro pre
  induction pre with
  | nil =>
    intro _
    simp [deployLoop, readMigrationFileDeploy, hk]
  | cons j rest ih =>
    intro hall
    have hj : fs j ≠ none := hall j (List.mem_cons_self j rest)
    cases hfs : fs j with
    | none => exact absurd hfs hj
    | some sql =>
      have := ih (fun m hm => hall m (List.mem_cons_of_mem j hm))
      simp [deployLoop, readMigrationFileDeploy, hfs, this]

theorem deployApplied_missing (fs : Nat → Option (List Char)) (k : Nat)
    (post : List Nat) (hk : fs k = none) :
    ∀ pre : List Nat, (∀ j ∈ pre, fs j ≠ none) →
      deployApplied fs (pre ++ k :: post) = pre := by
  intro pre
  induction pre with
  | nil =>
    intro _
    simp [deployApplied, hk]
  | cons j rest ih =>
    intro hall
    cases hfs : fs j with
    | none => exact absurd hfs (hall j (List.mem_cons_self j rest))
    | some sql =>
      have := ih (fun m hm => hall m (List.mem_cons_of_mem j hm))
      simp [deployApplied, hfs, this]

theorem tc008Finally_appt_mem (env : TC008Env) (pid aid : Option String)
    (h : pyTruthy aid = true) :
    DeleteTarget.appointment ∈ tc008Finally env pid aid := by
  unfold tc008Finally
  rw [if_pos h]
  cases env.apptDelete <;> simp

theorem tc008Finally_patient_mem (env : TC008Env) (pid aid : Option String)
    (hp : pyTruthy pid = true)
    (hg : pyTruthy aid = true → env.apptDelete ≠ ReqOutcome.raise) :
    DeleteTarget.patient ∈ tc008Finally env pid aid := by
  unfold tc008Finally
  by_cases ha : pyTruthy aid = true
  · rw [if_pos ha]
    cases hd : env.apptDelete with
    | raise => exact absurd hd (hg ha)
    | resp st i => simp [hp]
  · rw [if_neg ha, if_pos hp]
    simp

/-! ## Claim theorems -/

/-- C1 (counterexample): the claim says the splitter discards segments
consisting solely of a comment marker; on the text `SELECT 1;--` the
splitter of `apply_migration` keeps the `--` segment, so it yields two
statements where the claim predicts one (the spec-described splitter
`specSplitStatements` yields one). -/
theorem c1_splitter_keeps_comment_marker :
    splitStatements ("SELECT 1;--".toList) =
      ["SELECT 1".toList, "--".toList]
    ∧ specSplitStatements ("SELECT 1;--".toList) = ["SELECT 1".toList]
    ∧ splitStatements ("SELECT 1;--".toList) ≠
      specSplitStatements ("SELECT 1;--".toList) := by
  refine ⟨by decide, by decide, by decide⟩

/-- C1 (amended): for every SQL text assembled from `;`-free segments, the
splitter used by `apply_migration` yields exactly the segments whose trimmed
form is non-empty, order-preserved and trimmed; comment-marker segments are
NOT discarded by the splitter (the filter checks emptiness only — in
`apply-migrations-api.py` they are skipped at execution time while still
counting toward the statement total). -/
theorem c1_splitter_round_trip (segs : List (List Char))
    (h : ∀ s ∈ segs, ';' ∉ s) :
    splitStatements (joinSemi segs) =
      (segs.map pyStrip).filter (fun t => !t.isEmpty) := by
  rcases segs with _ | ⟨a, rest⟩
  · rfl
  · rw [splitStatements_eq_filter, pySplit_joinSemi (a :: rest) (by simp) h]

/-- C1 (witness): the round-trip theorem applied to a concrete segment
list. -/
theorem c1_splitter_witness :
    (∀ s ∈ ["SELECT a FROM t".toList, " UPDATE t SET x = 1 ".toList,
        "   ".toList], ';' ∉ s)
    ∧ splitStatements (joinSemi ["SELECT a FROM t".toList,
        " UPDATE t SET x = 1 ".toList, "   ".toList]) =
      (["SELECT a FROM t".toList, " UPDATE t SET x = 1 ".toList,
        "   ".toList].map pyStrip).filter (fun t => !t.isEmpty) :=
  ⟨by decide, c1_splitter_round_trip _ (by decide)⟩

/-- C2 (counterexample): on the file `SELECT 1;-- note` with every endpoint
succeeding, every submitted statement succeeds, yet `apply_migration`
reports the migration not fully applied, because the skipped `-- note`
segment still counts in `len(statements)`. -/
theorem c2_comment_segment_blocks_fully_applied :
    applyMigrationApi (fun _ => HttpOutcome.resp 200 "" (Except.ok "[]"))
      (fun _ => HttpOutcome.resp 200 "" (Except.ok ""))
      ("SELECT 1;-- note".toList) = false
    ∧ (runStatements (fun _ => HttpOutcome.resp 200 "" (Except.ok "[]"))
        (fun _ => HttpOutcome.resp 200 "" (Except.ok ""))
        (splitStatements ("SELECT 1;-- note".toList)).enum).all
        (fun q => q.2.success) = true
    ∧ (runStatements (fun _ => HttpOutcome.resp 200 "" (Except.ok "[]"))
        (fun _ => HttpOutcome.resp 200 "" (Except.ok ""))
        (splitStatements ("SELECT 1;-- note".toList)).enum).length = 1 := by
  refine ⟨rfl, rfl, rfl⟩

/-- C2 (amended): in `apply-migrations-api.py`, `apply_migration` reports a
migration fully applied iff every segment of the split — comment-marker
segments included — is non-skipped and its (fallback-inclusive) execution
succeeded, so a migration containing any `--`-starting segment is never
reported fully applied there; in `deploy-production.py`, `apply_migration`
has no comment skip — every split segment is non-empty, so none is skipped
and `--`-starting segments are submitted like any other — and the migration
is reported fully applied iff the single-endpoint execution of every
segment succeeded. -/
theorem c2_fully_applied_iff (erpc edirect erpcD : Nat → HttpOutcome)
    (sql sqlD : List Char) :
    (applyMigrationApi erpc edirect sql = true ↔
      ∀ p ∈ (splitStatements sql).enum,
        apiSkips p.2 = false ∧ (stmtResult erpc edirect p.1).success = true)
    ∧ (applyMigrationDeploy erpcD sqlD = true ↔
        ∀ p ∈ (splitStatements sqlD).enum,
          deploySkips p.2 = false ∧
            (executeSqlViaRpc (erpcD p.1)).success = true)
    ∧ (∀ s ∈ splitStatements sqlD, deploySkips s = false) := by
  refine ⟨?_, ?_, ?_⟩
  · have h := runLoop_countP_eq_length_iff apiSkips (stmtResult erpc edirect)
      (splitStatements sql).enum
    rw [List.enum_length] at h
    simpa [applyMigrationApi, runStatements] using h
  · have h := runLoop_countP_eq_length_iff deploySkips
      (fun i => executeSqlViaRpc (erpcD i)) (splitStatements sqlD).enum
    rw [List.enum_length] at h
    simpa [applyMigrationDeploy, runStatementsDeploy] using h
  · intro s hs
    exact splitStatements_not_empty sqlD s hs

/-- C2 (witness): the iff applied concretely to both appliers — the api
applier reports the plain file `a;b` fully applied with all endpoints
succeeding, and the deploy applier reports `SELECT 1;-- note` fully applied
(its comment segment is submitted and succeeds), the very file the api
applier never reports fully applied. -/
theorem c2_fully_applied_witness :
    applyMigrationApi (fun _ => HttpOutcome.resp 200 "" (Except.ok "[]"))
      (fun _ => HttpOutcome.resp 200 "" (Except.ok ""))
      ("a;b".toList) = true
    ∧ applyMigrationDeploy (fun _ => HttpOutcome.resp 200 "" (Except.ok "[]"))
      ("SELECT 1;-- note".toList) = true :=
  ⟨(c2_fully_applied_iff (fun _ => HttpOutcome.resp 200 "" (Except.ok "[]"))
      (fun _ => HttpOutcome.resp 200 "" (Except.ok ""))
      (fun _ => HttpOutcome.resp 200 "" (Except.ok "[]"))
      ("a;b".toList) ("SELECT 1;-- note".toList)).1.mpr (by decide),
   (c2_fully_applied_iff (fun _ => HttpOutcome.resp 200 "" (Except.ok "[]"))
      (fun _ => HttpOutcome.resp 200 "" (Except.ok ""))
      (fun _ => HttpOutcome.resp 200 "" (Except.ok "[]"))
      ("a;b".toList) ("SELECT 1;-- note".toList)).2.1.mpr (by decide)⟩

/-- C3 (counterexample): in `deploy-production.py`, with the first migration
file missing and the second present, the run terminates with exit status 1
from inside `read_migration_file` and the second migration is never applied
— contradicting the claim that the applier records the failure and proceeds
to the remaining migrations. -/
theorem c3_deploy_halts_on_missing_file :
    mainDeploy true (fun k => if k = 0 then none else some ("SELECT 1".toList))
      (fun _ _ => HttpOutcome.resp 200 "" (Except.ok "[]")) [0, 1] = 1
    ∧ deployApplied
        (fun k => if k = 0 then none else some ("SELECT 1".toList)) [0, 1]
        = [] := by
  refine ⟨rfl, rfl⟩

/-- C3 (amended): in `apply-migrations-api.py` a missing file makes that
migration count as failed while the loop still processes every migration in
the list; in `deploy-production.py` a missing file terminates the run with
exit status 1 and none of the migrations after it is applied. -/
theorem c3_missing_file_behavior (fs : Nat → Option (List Char))
    (erpc edirect erpcD : Nat → Nat → HttpOutcome) (k : Nat)
    (pre post : List Nat) (ks : List Nat)
    (hk : fs k = none) (hpre : ∀ j ∈ pre, fs j ≠ none) :
    migrationOk fs erpc edirect k = false
    ∧ (apiLoop fs erpc edirect ks).2 = ks
    ∧ mainDeploy true fs erpcD (pre ++ k :: post) = 1
    ∧ deployApplied fs (pre ++ k :: post) = pre := by
  refine ⟨?_, apiLoop_processed fs erpc edirect ks, ?_,
    deployApplied_missing fs k post hk pre hpre⟩
  · simp [migrationOk, readMigrationFileApi, hk]
  · simp [mainDeploy, deployExit, deployLoop_missing fs erpcD k post hk pre hpre]

/-- C3 (witness): the amended statement at a concrete two-migration list
whose first file is missing. -/
theorem c3_missing_file_witness :
    migrationOk (fun k => if k = 0 then none else some ("SELECT 1".toList))
      (fun _ _ => HttpOutcome.resp 200 "" (Except.ok "[]"))
      (fun _ _ => HttpOutcome.resp 200 "" (Except.ok "")) 0 = false
    ∧ (apiLoop (fun k => if k = 0 then none else some ("SELECT 1".toList))
        (fun _ _ => HttpOutcome.resp 200 "" (Except.ok "[]"))
        (fun _ _ => HttpOutcome.resp 200 "" (Except.ok "")) [0, 1]).2 = [0, 1]
    ∧ mainDeploy true (fun k => if k = 0 then none else some ("SELECT 1".toList))
        (fun _ _ => HttpOutcome.resp 200 "" (Except.ok "[]")) ([] ++ 0 :: [1]) = 1
    ∧ deployApplied (fun k => if k = 0 then none else some ("SELECT 1".toList))
        ([] ++ 0 :: [1]) = [] :=
  c3_missing_file_behavior _ _ _ _ 0 [] [1] [0, 1] rfl (by simp)

/-- C4 (counterexample): in `deploy-production.py` the primary attempt can
fail with no secondary attempt following — there is no fallback endpoint at
all — contradicting the claim that the applier attempts the secondary
endpoint iff the primary attempt was non-success. -/
theorem c4_deploy_no_fallback :
    (executeSqlViaRpc
      ((fun _ => HttpOutcome.resp 500 "boom" (Except.error "e")) 0)).success
      = false
    ∧ attemptsDeploy (fun _ => HttpOutcome.resp 500 "boom" (Except.error "e"))
        0 = [Endpoint.rpc]
    ∧ Endpoint.direct ∉
        attemptsDeploy (fun _ => HttpOutcome.resp 500 "boom" (Except.error "e"))
          0 := by
  refine ⟨rfl, rfl, by decide⟩

/-- C4 (amended): in `apply-migrations-api.py` each executed statement gets
at most two attempts — the primary RPC endpoint first, the secondary direct
endpoint iff the primary attempt was non-success, nothing further; in
`deploy-production.py` each executed statement gets exactly one attempt
(the primary endpoint), with no fallback. -/
theorem c4_attempt_policy (erpc : Nat → HttpOutcome) (i : Nat) :
    (attemptsApi erpc i).length ≤ 2
    ∧ (attemptsApi erpc i).head? = some Endpoint.rpc
    ∧ (Endpoint.direct ∈ attemptsApi erpc i ↔
        (executeSqlViaRpc (erpc i)).success = false)
    ∧ attemptsDeploy erpc i = [Endpoint.rpc] := by
  by_cases h : (executeSqlViaRpc (erpc i)).success
  · simp [attemptsApi, attemptsDeploy, h]
  · simp [attemptsApi, attemptsDeploy, h]

/-- C4 (witness): the attempt policy at a concrete failing primary
outcome. -/
theorem c4_attempt_witness :
    (attemptsApi (fun _ => HttpOutcome.exn "timeout") 0).length ≤ 2
    ∧ (attemptsApi (fun _ => HttpOutcome.exn "timeout") 0).head?
        = some Endpoint.rpc
    ∧ (Endpoint.direct ∈ attemptsApi (fun _ => HttpOutcome.exn "timeout") 0 ↔
        (executeSqlViaRpc
          ((fun _ => HttpOutcome.exn "timeout") 0)).success = false)
    ∧ attemptsDeploy (fun _ => HttpOutcome.exn "timeout") 0 = [Endpoint.rpc] :=
  c4_attempt_policy _ 0

/-- C5: the run of `apply-migrations-api.py` exits with status zero iff the
connectivity check passed and every migration in the list was fully applied
(its file read, non-empty, and `apply_migration` returning `True`) — when
the connectivity check fails the migrations are never attempted — and in
every other case the exit status is the non-zero 1; likewise
`deploy-production.py` exits zero iff its credentials were present and every
migration was read and fully applied, and exits 1 otherwise. -/
theorem c5_exit_status_iff (conn : Bool) (fs : Nat → Option (List Char))
    (erpc edirect : Nat → Nat → HttpOutcome) (ks : List Nat) (envOk : Bool)
    (fsD : Nat → Option (List Char)) (erpcD : Nat → Nat → HttpOutcome)
    (ksD : List Nat) :
    (mainApi conn fs erpc edirect ks = 0 ↔
      conn = true ∧ ∀ k ∈ ks, migrationOk fs erpc edirect k = true)
    ∧ (mainApi conn fs erpc edirect ks = 0 ∨
        mainApi conn fs erpc edirect ks = 1)
    ∧ (mainDeploy envOk fsD erpcD ksD = 0 ↔
        envOk = true ∧ ∀ k ∈ ksD, deployFullyApplied fsD erpcD k = true)
    ∧ (mainDeploy envOk fsD erpcD ksD = 0 ∨
        mainDeploy envOk fsD erpcD ksD = 1) := by
  refine ⟨?_, ?_, ?_, ?_⟩
  · cases conn with
    | false => simp [mainApi]
    | true =>
      rw [show mainApi true fs erpc edirect ks =
          (if (apiLoop fs erpc edirect ks).1 = ks.length then 0 else 1) from rfl]
      rw [apiLoop_count]
      by_cases hc : ks.countP (fun k => migrationOk fs erpc edirect k)
          = ks.length
      · simp only [hc, if_pos rfl]
        simpa using List.countP_eq_length.mp hc
      · simp only [hc, if_neg]
        constructor
        · intro h1
          exact absurd h1 (by simp [hc])
        · intro hall
          exact absurd (List.countP_eq_length.mpr (by simpa using hall.2)) hc
  · cases conn with
    | false => simp [mainApi]
    | true =>
      by_cases hc : (apiLoop fs erpc edirect ks).1 = ks.length
      · simp [mainApi, hc]
      · simp [mainApi, hc]
  · cases envOk with
    | false => simp [mainDeploy]
    | true =>
      rw [show mainDeploy true fsD erpcD ksD = deployExit fsD erpcD ksD
        from rfl]
      simpa using deployExit_eq_zero_iff fsD erpcD ksD
  · cases envOk with
    | false => simp [mainDeploy]
    | true =>
      rw [show mainDeploy true fsD erpcD ksD = deployExit fsD erpcD ksD
        from rfl]
      unfold deployExit
      cases deployLoop fsD erpcD ksD with
      | error e => simp
      | ok n => by_cases hn : n = ksD.length <;> simp [hn]

/-- C5 (witness): both mains exit zero on a concrete all-success,
single-migration run. -/
theorem c5_exit_status_witness :
    mainApi true (fun _ => some ("SELECT 1".toList))
      (fun _ _ => HttpOutcome.resp 200 "" (Except.ok "[]"))
      (fun _ _ => HttpOutcome.resp 200 "" (Except.ok "")) [0] = 0
    ∧ mainDeploy true (fun _ => some ("SELECT 1".toList))
      (fun _ _ => HttpOutcome.resp 200 "" (Except.ok "[]")) [0] = 0 :=
  ⟨((c5_exit_status_iff true (fun _ => some ("SELECT 1".toList))
      (fun _ _ => HttpOutcome.resp 200 "" (Except.ok "[]"))
      (fun _ _ => HttpOutcome.resp 200 "" (Except.ok "")) [0] true
      (fun _ => some ("SELECT 1".toList))
      (fun _ _ => HttpOutcome.resp 200 "" (Except.ok "[]")) [0]).1).mpr
      ⟨rfl, by decide⟩,
   ((c5_exit_status_iff true (fun _ => some ("SELECT 1".toList))
      (fun _ _ => HttpOutcome.resp 200 "" (Except.ok "[]"))
      (fun _ _ => HttpOutcome.resp 200 "" (Except.ok "")) [0] true
      (fun _ => some ("SELECT 1".toList))
      (fun _ _ => HttpOutcome.resp 200 "" (Except.ok "[]")) [0]).2.2.1).mpr
      ⟨rfl, by decide⟩⟩

/-- C6: a failing statement never aborts the file in either applier: the
sequence of submitted statement indices does not depend on the execution
results at all, and every non-skipped statement of the list appears among
the submitted indices whatever the oracles answer. -/
theorem c6_failure_does_not_abort (erpc edirect erpc' edirect' : Nat → HttpOutcome)
    (ps : List (Nat × List Char)) (p : Nat × List Char) :
    ((runStatements erpc edirect ps).map Prod.fst =
      (runStatements erpc' edirect' ps).map Prod.fst)
    ∧ ((runStatementsDeploy erpc ps).map Prod.fst =
        (runStatementsDeploy erpc' ps).map Prod.fst)
    ∧ (p ∈ ps → apiSkips p.2 = false →
        p.1 ∈ (runStatements erpc edirect ps).map Prod.fst)
    ∧ (p ∈ ps → deploySkips p.2 = false →
        p.1 ∈ (runStatementsDeploy erpc ps).map Prod.fst) :=
  ⟨runLoop_map_fst apiSkips _ _ ps,
   runLoop_map_fst deploySkips _ _ ps,
   fun hp hs => runLoop_mem_fst apiSkips _ hp hs,
   fun hp hs => runLoop_mem_fst deploySkips _ hp hs⟩

/-- C6 (witness): with every request failing, the statement after the
failing first one is still submitted by both loops. -/
theorem c6_no_abort_witness :
    1 ∈ (runStatements (fun _ => HttpOutcome.exn "down")
        (fun _ => HttpOutcome.exn "down")
        [(0, "CREATE TABLE a (x int)".toList), (1, "GRANT ALL".toList)]).map
        Prod.fst
    ∧ 1 ∈ (runStatementsDeploy (fun _ => HttpOutcome.exn "down")
        [(0, "CREATE TABLE a (x int)".toList), (1, "GRANT ALL".toList)]).map
        Prod.fst :=
  ⟨(c6_failure_does_not_abort (fun _ => HttpOutcome.exn "down")
      (fun _ => HttpOutcome.exn "down") (fun _ => HttpOutcome.exn "down")
      (fun _ => HttpOutcome.exn "down")
      [(0, "CREATE TABLE a (x int)".toList), (1, "GRANT ALL".toList)]
      (1, "GRANT ALL".toList)).2.2.1 (by decide) (by decide),
   (c6_failure_does_not_abort (fun _ => HttpOutcome.exn "down")
      (fun _ => HttpOutcome.exn "down") (fun _ => HttpOutcome.exn "down")
      (fun _ => HttpOutcome.exn "down")
      [(0, "CREATE TABLE a (x int)".toList), (1, "GRANT ALL".toList)]
      (1, "GRANT ALL".toList)).2.2.2 (by decide) (by decide)⟩

/-- C7: when the primary attempt is non-success and the secondary attempt
fails with error text `e2`, the result `apply_migration` keeps and logs is
exactly the secondary failure `err e2`, and it is identical for any other
failing primary outcome — the primary error detail is discarded. -/
theorem c7_secondary_error_reported (erpc erpc' edirect : Nat → HttpOutcome)
    (i : Nat) (e2 : String)
    (h1 : (executeSqlViaRpc (erpc i)).success = false)
    (h1' : (executeSqlViaRpc (erpc' i)).success = false)
    (h2 : executeSqlDirect (edirect i) = SqlResult.err e2) :
    stmtResult erpc edirect i = SqlResult.err e2
    ∧ stmtResult erpc' edirect i = stmtResult erpc edirect i := by
  constructor
  · simp [stmtResult, h1, h2]
  · simp [stmtResult, h1, h1', h2]

/-- C7 (witness): two different failing primary outcomes yield the same
reported result, carrying only the secondary error text. -/
theorem c7_secondary_error_witness :
    stmtResult (fun _ => HttpOutcome.exn "primary down")
      (fun _ => HttpOutcome.resp 404 "not found" (Except.ok "")) 0
      = SqlResult.err "HTTP 404: not found"
    ∧ stmtResult (fun _ => HttpOutcome.resp 500 "other" (Except.error "x"))
      (fun _ => HttpOutcome.resp 404 "not found" (Except.ok "")) 0
      = stmtResult (fun _ => HttpOutcome.exn "primary down")
        (fun _ => HttpOutcome.resp 404 "not found" (Except.ok "")) 0 :=
  c7_secondary_error_reported (fun _ => HttpOutcome.exn "primary down")
    (fun _ => HttpOutcome.resp 500 "other" (Except.error "x"))
    (fun _ => HttpOutcome.resp 404 "not found" (Except.ok "")) 0
    "HTTP 404: not found" rfl rfl rfl

/-- C8: both execution functions convert a raised exception into a failure
result carrying the exception message — they never propagate it, so the
applier continues with the next statement. -/
theorem c8_exceptions_become_failure_results (msg : String) :
    executeSqlViaRpc (HttpOutcome.exn msg) = SqlResult.err msg
    ∧ executeSqlDirect (HttpOutcome.exn msg) = SqlResult.err msg
    ∧ (executeSqlViaRpc (HttpOutcome.exn msg)).success = false
    ∧ (executeSqlDirect (HttpOutcome.exn msg)).success = false :=
  ⟨rfl, rfl, rfl, rfl⟩

/-- C8 (witness): the conversion at a concrete timeout message. -/
theorem c8_exception_witness :
    executeSqlViaRpc (HttpOutcome.exn "connection timed out")
      = SqlResult.err "connection timed out"
    ∧ executeSqlDirect (HttpOutcome.exn "connection timed out")
      = SqlResult.err "connection timed out"
    ∧ (executeSqlViaRpc (HttpOutcome.exn "connection timed out")).success
      = false
    ∧ (executeSqlDirect (HttpOutcome.exn "connection timed out")).success
      = false :=
  c8_exceptions_become_failure_results "connection timed out"

/-- C9 (counterexample): in TC008, with both resources created and recorded
and the appointment DELETE raising inside the `finally` block, no cleanup
deletion is attempted for the created patient — the exception skips the
patient DELETE — contradicting the claim that a deletion is attempted for
each created resource on every exit path. -/
theorem c9_tc008_patient_cleanup_skipped :
    tc008Run ⟨.resp 200 none, .resp 201 (some "p1"), .resp 201 (some "a1"),
        .resp 409 none, .resp 400 none, .resp 400 none, .raise,
        .resp 200 none⟩
      = ⟨true, true, true, true, [DeleteTarget.appointment]⟩
    ∧ (tc008Run ⟨.resp 200 none, .resp 201 (some "p1"),
        .resp 201 (some "a1"), .resp 409 none, .resp 400 none, .resp 400 none,
        .raise, .resp 200 none⟩).createdPatient = true
    ∧ DeleteTarget.patient ∉
        (tc008Run ⟨.resp 200 none, .resp 201 (some "p1"),
          .resp 201 (some "a1"), .resp 409 none, .resp 400 none,
          .resp 400 none, .raise, .resp 200 none⟩).deletions := by
  refine ⟨by decide, by decide, by decide⟩

/-- C9 (amended): on every exit path a cleanup deletion is attempted for
each resource whose identifier was recorded (truthy) before the exit —
rather than each resource created — except that in TC008 the cleanup
deletions are not exception-guarded, so the patient deletion is attempted
only when the appointment deletion (if one happens) does not raise; in
TC004 each deletion is individually guarded and every recorded id gets an
attempt, and in TC010 the recorded patient always gets an attempt. -/
theorem c9_cleanup_attempted_for_recorded (env4 : TC004Env) (env8 : TC008Env)
    (env10 : TC010Env) :
    ((tc004Run env4).deletions = (tc004Run env4).recordedIds)
    ∧ ((tc008Run env8).recordedAppt = true →
        DeleteTarget.appointment ∈ (tc008Run env8).deletions)
    ∧ ((tc008Run env8).recordedPatient = true →
        ((tc008Run env8).recordedAppt = true →
          env8.apptDelete ≠ ReqOutcome.raise) →
        DeleteTarget.patient ∈ (tc008Run env8).deletions)
    ∧ ((tc010Run env10).recordedPatient = true →
        DeleteTarget.patient ∈ (tc010Run env10).deletions) := by
  refine ⟨?_, ?_, ?_, ?_⟩
  · rcases env4 with ⟨c, i, d⟩
    cases c with
    | raise => rfl
    | resp st pid =>
      cases pid with
      | none =>
        by_cases h : (st == 201) = true <;> simp [tc004Run, h, tc004Finally]
      | some s =>
        by_cases h : (st == 201) = true
        · cases i with
          | raise => simp [tc004Run, h, tc004Finally]
          | resp ist i2 =>
            by_cases hi : 400 ≤ ist
            · cases d with
              | raise => simp [tc004Run, h, hi, tc004Finally]
              | resp dst d2 =>
                by_cases hd : 400 ≤ dst <;>
                  simp [tc004Run, h, hi, hd, tc004Finally]
            · simp [tc004Run, h, hi, tc004Finally]
        · simp [tc004Run, h, tc004Finally]
  · cases hl : env8.login with
    | raise =>
      intro h
      simp [tc008Run, hl] at h
    | resp lst tok =>
      by_cases h200 : (lst == 200) = true
      · intro h
        have hd : (tc008Run env8).deletions =
            tc008Finally env8 (tc008TryBlock env8).patientId
              (tc008TryBlock env8).apptId := by
          simp [tc008Run, hl, h200]
        have ha : pyTruthy (tc008TryBlock env8).apptId = true := by
          simpa [tc008Run, hl, h200] using h
        rw [hd]
        exact tc008Finally_appt_mem env8 _ _ ha
      · intro h
        simp [tc008Run, hl, h200] at h
  · cases hl : env8.login with
    | raise =>
      intro h
      simp [tc008Run, hl] at h
    | resp lst tok =>
      by_cases h200 : (lst == 200) = true
      · intro hp hg
        have hd : (tc008Run env8).deletions =
            tc008Finally env8 (tc008TryBlock env8).patientId
              (tc008TryBlock env8).apptId := by
          simp [tc008Run, hl, h200]
        have hp2 : pyTruthy (tc008TryBlock env8).patientId = true := by
          simpa [tc008Run, hl, h200] using hp
        have hg2 : pyTruthy (tc008TryBlock env8).apptId = true →
            env8.apptDelete ≠ ReqOutcome.raise := by
          intro ha
          apply hg
          simpa [tc008Run, hl, h200] using ha
        rw [hd]
        exact tc008Finally_patient_mem env8 _ _ hp2 hg2
      · intro hp
        simp [tc008Run, hl, h200] at hp
  · cases hl : env10.login with
    | raise =>
      intro h
      simp [tc010Run, hl] at h
    | resp lst tok =>
      by_cases h200 : (lst == 200) = true
      · cases hc : env10.create with
        | raise =>
          intro h
          simp [tc010Run, hl, h200, hc, tc010Finally, pyTruthy] at h
        | resp st pid =>
          by_cases h201 : (st == 201) = true
          · cases pid with
            | none =>
              intro h
              simp [tc010Run, hl, h200, hc, h201, tc010Finally, pyTruthy] at h
            | some s =>
              intro h
              have hp : pyTruthy (some s) = true := by
                simpa [tc010Run, hl, h200, hc, h201] using h
              simp [tc010Run, hl, h200, hc, h201, tc010Finally, hp]
          · intro h
            simp [tc010Run, hl, h200, hc, h201, tc010Finally, pyTruthy] at h
      · intro h
        simp [tc010Run, hl, h200] at h

/-- C9 (witness): the amended statement at concrete runs — an all-success
TC008 run deletes both resources, an all-success TC010 run deletes its
patient, and a TC004 run attempts exactly its recorded ids. -/
theorem c9_cleanup_witness :
    DeleteTarget.appointment ∈
      (tc008Run ⟨.resp 200 none, .resp 201 (some "p1"), .resp 201 (some "a1"),
        .resp 409 none, .resp 400 none, .resp 400 none, .resp 200 none,
        .resp 200 none⟩).deletions
    ∧ DeleteTarget.patient ∈
      (tc008Run ⟨.resp 200 none, .resp 201 (some "p1"), .resp 201 (some "a1"),
        .resp 409 none, .resp 400 none, .resp 400 none, .resp 200 none,
        .resp 200 none⟩).deletions
    ∧ DeleteTarget.patient ∈
      (tc010Run ⟨.resp 200 none, .resp 201 (some "p2"), .passed,
        .resp 200 none⟩).deletions
    ∧ (tc004Run ⟨.resp 201 (some "p3"), .resp 400 none,
        .resp 409 none⟩).deletions
      = (tc004Run ⟨.resp 201 (some "p3"), .resp 400 none,
          .resp 409 none⟩).recordedIds :=
  ⟨(c9_cleanup_attempted_for_recorded ⟨.resp 201 (some "p3"), .resp 400 none,
      .resp 409 none⟩
      ⟨.resp 200 none, .resp 201 (some "p1"), .resp 201 (some "a1"),
        .resp 409 none, .resp 400 none, .resp 400 none, .resp 200 none,
        .resp 200 none⟩
      ⟨.resp 200 none, .resp 201 (some "p2"), .passed,
        .resp 200 none⟩).2.1 (by decide),
   (c9_cleanup_attempted_for_recorded ⟨.resp 201 (some "p3"), .resp 400 none,
      .resp 409 none⟩
      ⟨.resp 200 none, .resp 201 (some "p1"), .resp 201 (some "a1"),
        .resp 409 none, .resp 400 none, .resp 400 none, .resp 200 none,
        .resp 200 none⟩
      ⟨.resp 200 none, .resp 201 (some "p2"), .passed,
        .resp 200 none⟩).2.2.1 (by decide) (by decide),
   (c9_cleanup_attempted_for_recorded ⟨.resp 201 (some "p3"), .resp 400 none,
      .resp 409 none⟩
      ⟨.resp 200 none, .resp 201 (some "p1"), .resp 201 (some "a1"),
        .resp 409 none, .resp 400 none, .resp 400 none, .resp 200 none,
        .resp 200 none⟩
      ⟨.resp 200 none, .resp 201 (some "p2"), .passed,
        .resp 200 none⟩).2.2.2 (by decide),
   (c9_cleanup_attempted_for_recorded ⟨.resp 201 (some "p3"), .resp 400 none,
      .resp 409 none⟩
      ⟨.resp 200 none, .resp 201 (some "p1"), .resp 201 (some "a1"),
        .resp 409 none, .resp 400 none, .resp 400 none, .resp 200 none,
        .resp 200 none⟩
      ⟨.resp 200 none, .resp 201 (some "p2"), .passed,
        .resp 200 none⟩).1⟩

/-- C10 (counterexample): a 200 response whose body is not valid JSON makes
the primary attempt fail (the `response.json()` call inside the `try` block
raises and is caught), so primary success is not equivalent to status 200;
the 201-vs-endpoints part of the claim is as stated. -/
theorem c10_status_200_json_failure :
    (executeSqlViaRpc
      (HttpOutcome.resp 200 "ok" (Except.error "Expecting value"))).success
      = false
    ∧ (executeSqlViaRpc (HttpOutcome.resp 201 "" (Except.ok "d"))).success
      = false
    ∧ (executeSqlDirect (HttpOutcome.resp 201 "" (Except.ok "d"))).success
      = true
    ∧ (executeSqlDirect (HttpOutcome.resp 204 "" (Except.ok "d"))).success
      = true :=
  ⟨rfl, rfl, rfl, rfl⟩

/-- C10 (amended): for every response, the primary attempt succeeds iff the
status is exactly 200 AND the body parses as JSON, while the secondary
attempt succeeds iff the status is 200, 201 or 204 (its body is never
parsed); hence a 201 or 204 response fails on the primary attempt but
succeeds on the fallback. -/
theorem c10_success_criteria (status : Nat) (body : String)
    (js : Except String String) :
    ((executeSqlViaRpc (HttpOutcome.resp status body js)).success = true ↔
      (status = 200 ∧ ∃ d, js = Except.ok d))
    ∧ ((executeSqlDirect (HttpOutcome.resp status body js)).success = true ↔
        (status = 200 ∨ status = 201 ∨ status = 204)) := by
  constructor
  · by_cases h : status = 200
    · cases js with
      | ok d => simp [executeSqlViaRpc, h, SqlResult.success]
      | error e => simp [executeSqlViaRpc, h, SqlResult.success]
    · simp [executeSqlViaRpc, h, SqlResult.success]
  · by_cases h : status = 200 ∨ status = 201 ∨ status = 204
    · simp [executeSqlDirect, h, SqlResult.success]
    · simp [executeSqlDirect, h, SqlResult.success]

/-- C10 (witness): the criteria applied at a 204 response. -/
theorem c10_success_witness :
    (executeSqlDirect (HttpOutcome.resp 204 "" (Except.ok ""))).success
      = true :=
  ((c10_success_criteria 204 "" (Except.ok "")).2).mpr (by decide)

end DuduFisio
